import Mathlib

/-!
A verification development for the `example_salome_export.py` pipeline of
OpenPNM.  The repository ships a single example script that builds a cubic
pore network, attaches a stick-and-ball geometry and a water phase, and
exports the project in Salome format.  The library calls the script makes
(`op.network.Cubic`, `op.geometry.StickAndBall`, `op.phases.Water`,
`proj.export_data`) are modelled here from the specification, since only
the script itself is part of the sources.
-/

namespace OpenPNM

/-- A lattice coordinate (i, j, k) of a pore in a cubic network. -/
abbrev Coord := Nat × Nat × Nat

/-- Modelled from the spec: the pores of a cubic network with shape
`(nx, ny, nz)` are all lattice coordinates `(i, j, k)` with `i < nx`,
`j < ny`, `k < nz` (spec §4.2: the network contains `nx*ny*nz` pores). -/
def cubicPores (nx ny nz : Nat) : List Coord :=
  (List.range nx).flatMap fun i =>
    (List.range ny).flatMap fun j =>
      (List.range nz).map fun k => (i, j, k)

/-- Modelled from the spec: the throats along the x axis connect each pore
`(i, j, k)` with `i + 1 < nx` to `(i+1, j, k)` (spec §4.2: 6-connectivity). -/
def cubicThroatsX (nx ny nz : Nat) : List (Coord × Coord) :=
  (List.range (nx - 1)).flatMap fun i =>
    (List.range ny).flatMap fun j =>
      (List.range nz).map fun k => ((i, j, k), (i + 1, j, k))

/-- Modelled from the spec: the throats along the y axis connect each pore
`(i, j, k)` with `j + 1 < ny` to `(i, j+1, k)`. -/
def cubicThroatsY (nx ny nz : Nat) : List (Coord × Coord) :=
  (List.range nx).flatMap fun i =>
    (List.range (ny - 1)).flatMap fun j =>
      (List.range nz).map fun k => ((i, j, k), (i, j + 1, k))

/-- Modelled from the spec: the throats along the z axis connect each pore
`(i, j, k)` with `k + 1 < nz` to `(i, j, k+1)`. -/
def cubicThroatsZ (nx ny nz : Nat) : List (Coord × Coord) :=
  (List.range nx).flatMap fun i =>
    (List.range ny).flatMap fun j =>
      (List.range (nz - 1)).map fun k => ((i, j, k), (i, j, k + 1))

/-- Modelled from the spec: all throats of the cubic network, the
axis-aligned nearest-neighbour edges of the lattice. -/
def cubicThroats (nx ny nz : Nat) : List (Coord × Coord) :=
  cubicThroatsX nx ny nz ++ cubicThroatsY nx ny nz ++ cubicThroatsZ nx ny nz

/-- Modelled from the spec: the spacing argument of `op.network.Cubic` is a
positive real scalar or 3-vector (spec §4.2); reals are modelled as `ℚ`. -/
inductive Spacing
  | scalar (s : ℚ)
  | vec (sx sy sz : ℚ)
  deriving DecidableEq, Repr

/-- The three spacing components: a scalar spacing applies to every axis. -/
def Spacing.components : Spacing → ℚ × ℚ × ℚ
  | .scalar s => (s, s, s)
  | .vec sx sy sz => (sx, sy, sz)

/-- A spacing is valid when every component is positive (spec §4.2). -/
def Spacing.isValid : Spacing → Bool
  | .scalar s => decide (0 < s)
  | .vec sx sy sz => decide (0 < sx) && decide (0 < sy) && decide (0 < sz)

/-- Modelled from the spec: a `Network` object produced by
`op.network.Cubic` — a graph of pores and throats with a validated shape
and spacing (spec §3). -/
structure Network where
  nx : Nat
  ny : Nat
  nz : Nat
  spacing : ℚ × ℚ × ℚ
  deriving DecidableEq, Repr

/-- The pores of a network. -/
def Network.pores (n : Network) : List Coord := cubicPores n.nx n.ny n.nz

/-- The throats of a network. -/
def Network.throats (n : Network) : List (Coord × Coord) :=
  cubicThroats n.nx n.ny n.nz

/-- Pore count (`net.Np` in OpenPNM). -/
def Network.Np (n : Network) : Nat := n.pores.length

/-- Throat count (`net.Nt` in OpenPNM). -/
def Network.Nt (n : Network) : Nat := n.throats.length

/-- The full ordered sequence of pore identifiers (`net.Ps`). -/
def Network.Ps (n : Network) : List Nat := List.range n.Np

/-- The full ordered sequence of throat identifiers (`net.Ts`). -/
def Network.Ts (n : Network) : List Nat := List.range n.Nt

/-- Modelled from the spec: the errors `op.network.Cubic` can raise
(spec §4.2). -/
inductive BuildError
  | invalidShape
  | invalidSpacing
  deriving DecidableEq, Repr

/-- Modelled from the spec: `op.network.Cubic` — validates that every
shape dimension is positive and that the spacing is positive, then builds
the 6-connected cubic lattice (spec §4.2).  The `rng` argument stands for
the ambient random-number-generator state (`np.random.seed`); per the spec
the topology involves no randomness, so the builder never reads it. -/
def Cubic (shape : Int × Int × Int) (spacing : Spacing) (_rng : Nat) :
    Except BuildError Network :=
  if shape.1 ≤ 0 ∨ shape.2.1 ≤ 0 ∨ shape.2.2 ≤ 0 then
    .error .invalidShape
  else if ¬ spacing.isValid then
    .error .invalidSpacing
  else
    .ok ⟨shape.1.toNat, shape.2.1.toNat, shape.2.2.toNat, spacing.components⟩

/-! ### Counting lemmas -/

theorem length_flatMap_const {α β : Type} (l : List α) (f : α → List β) (c : Nat)
    (h : ∀ a ∈ l, (f a).length = c) : (l.flatMap f).length = l.length * c := by
  induction l with
  | nil => simp
  | cons a l ih =>
      simp only [List.flatMap_cons, List.length_append, List.length_cons]
      rw [h a (List.mem_cons_self a l), ih fun b hb => h b (List.mem_cons_of_mem a hb)]
      ring

theorem cubicPores_length (nx ny nz : Nat) :
    (cubicPores nx ny nz).length = nx * ny * nz := by
  unfold cubicPores
  rw [length_flatMap_const _ _ (ny * nz), List.length_range, Nat.mul_assoc]
  intro i _
  rw [length_flatMap_const _ _ nz, List.length_range]
  intro j _
  simp

theorem cubicThroatsX_length (nx ny nz : Nat) :
    (cubicThroatsX nx ny nz).length = (nx - 1) * ny * nz := by
  unfold cubicThroatsX
  rw [length_flatMap_const _ _ (ny * nz), List.length_range, Nat.mul_assoc]
  intro i _
  rw [length_flatMap_const _ _ nz, List.length_range]
  intro j _
  simp

theorem cubicThroatsY_length (nx ny nz : Nat) :
    (cubicThroatsY nx ny nz).length = nx * (ny - 1) * nz := by
  unfold cubicThroatsY
  rw [length_flatMap_const _ _ ((ny - 1) * nz), List.length_range, Nat.mul_assoc]
  intro i _
  rw [length_flatMap_const _ _ nz, List.length_range]
  intro j _
  simp

theorem cubicThroatsZ_length (nx ny nz : Nat) :
    (cubicThroatsZ nx ny nz).length = nx * ny * (nz - 1) := by
  unfold cubicThroatsZ
  rw [length_flatMap_const _ _ (ny * (nz - 1)), List.length_range, Nat.mul_assoc]
  intro i _
  rw [length_flatMap_const _ _ (nz - 1), List.length_range]
  intro j _
  simp

theorem cubicThroats_length (nx ny nz : Nat) :
    (cubicThroats nx ny nz).length =
      nx * ny * (nz - 1) + nx * (ny - 1) * nz + (nx - 1) * ny * nz := by
  unfold cubicThroats
  simp only [List.length_append, cubicThroatsX_length, cubicThroatsY_length,
    cubicThroatsZ_length]
  ring

/-! ### Stick-and-ball geometry -/

/-- Per-pore geometric attributes (spec §3: diameter, volume). -/
structure PoreGeom where
  diameter : ℚ
  volume : ℚ
  deriving DecidableEq, Repr

/-- Per-throat geometric attributes (spec §3: diameter, length, volume). -/
structure ThroatGeom where
  diameter : ℚ
  length : ℚ
  volume : ℚ
  deriving DecidableEq, Repr

/-- The smallest spacing component of a network. -/
def Network.minSpacing (n : Network) : ℚ :=
  min n.spacing.1 (min n.spacing.2.1 n.spacing.2.2)

/-- Modelled from the spec: the pore diameter under the stick-and-ball
model is derived from the available void space, proportional to the
spacing (spec §4.3; the proportionality constant is a free choice). -/
def poreDiameter (n : Network) (_p : Coord) : ℚ := n.minSpacing / 2

/-- Modelled from the spec: pore volume of the spherical pore, a fixed
deterministic function of its diameter. -/
def poreVolume (n : Network) (p : Coord) : ℚ := (poreDiameter n p) ^ 3

/-- Distance between two lattice coordinates along one axis. -/
def natDist (a b : Nat) : Nat := max a b - min a b

/-- The distance between the centres of two axis-aligned neighbouring
pores (centres sit at the lattice coordinate scaled by the spacing). -/
def centerDist (n : Network) (p q : Coord) : ℚ :=
  natDist p.1 q.1 * n.spacing.1 + natDist p.2.1 q.2.1 * n.spacing.2.1 +
    natDist p.2.2 q.2.2 * n.spacing.2.2

/-- Modelled from the spec: throat diameter is a fraction of the smaller
adjacent pore diameter (spec §4.3). -/
def throatDiameter (n : Network) (t : Coord × Coord) : ℚ :=
  min (poreDiameter n t.1) (poreDiameter n t.2) / 2

/-- Modelled from the spec: throat length is the distance between the
connected pore centres minus the two pore radii (spec §4.3). -/
def throatLength (n : Network) (t : Coord × Coord) : ℚ :=
  centerDist n t.1 t.2 - poreDiameter n t.1 / 2 - poreDiameter n t.2 / 2

/-- Modelled from the spec: throat volume of the cylindrical throat, a
fixed deterministic function of its diameter and length. -/
def throatVolume (n : Network) (t : Coord × Coord) : ℚ :=
  throatDiameter n t ^ 2 * throatLength n t

/-- Modelled from the spec: a `Geometry` object maps each covered pore and
throat identifier to its geometric scalars (spec §3). -/
structure Geometry where
  poreAttrs : List (Nat × PoreGeom)
  throatAttrs : List (Nat × ThroatGeom)
  deriving DecidableEq, Repr

/-- Modelled from the spec: the error `op.geometry.StickAndBall` raises
when a referenced identifier is absent from the network (spec §4.3). -/
inductive GeoError
  | entityNotFound
  deriving DecidableEq, Repr

/-- The geometric attributes for the given (already validated) pore and
throat identifier lists, computed deterministically from the network. -/
def computeGeometry (net : Network) (ps ts : List Nat) : Geometry where
  poreAttrs := ps.map fun p =>
    (p, ⟨poreDiameter net (net.pores.getD p (0, 0, 0)),
      poreVolume net (net.pores.getD p (0, 0, 0))⟩)
  throatAttrs := ts.map fun t =>
    (t, ⟨throatDiameter net (net.throats.getD t ((0, 0, 0), (0, 0, 0))),
      throatLength net (net.throats.getD t ((0, 0, 0), (0, 0, 0))),
      throatVolume net (net.throats.getD t ((0, 0, 0), (0, 0, 0)))⟩)

/-- Modelled from the spec: `op.geometry.StickAndBall` — checks that every
referenced pore and throat identifier exists in the network, raising
`EntityNotFoundError` otherwise, and assigns per-entity geometric
attributes by the fixed stick-and-ball formulas (spec §4.3). -/
def StickAndBall (net : Network) (ps ts : List Nat) :
    Except GeoError Geometry :=
  if (ps.all fun p => p < net.Np) && (ts.all fun t => t < net.Nt) then
    .ok (computeGeometry net ps ts)
  else
    .error .entityNotFound

/-- The ambient mutable simulation state: only the random-number-generator
state set by `np.random.seed` lives outside the project. -/
structure SimState where
  rng : Nat
  deriving DecidableEq, Repr

/-- Modelled from the spec: a run of the geometry assigner threaded through
the ambient state; per the spec the computation is deterministic with no
hidden randomness, so the state passes through untouched (spec §8). -/
def StickAndBallRun (net : Network) (ps ts : List Nat) (st : SimState) :
    Except GeoError (Geometry × SimState) :=
  (StickAndBall net ps ts).map fun g => (g, st)

/-! ### Phase, project, filesystem and exporter -/

/-- Modelled from the spec: a `Phase` object carries a fixed table of
physical properties for a named fluid (spec §4.4). -/
structure Phase where
  name : String
  density : ℚ
  viscosity : ℚ
  deriving DecidableEq, Repr

/-- Modelled from the spec: `op.phases.Water` — a phase pre-populated with
the static water property table (spec §4.4: density ≈ 1000 kg/m³,
viscosity ≈ 0.001 Pa·s). -/
def Water (_net : Network) : Phase := ⟨"water", 1000, 1 / 1000⟩

/-- Modelled from the spec: a `Project` owns one network and its derived
geometry and phase objects (spec §3). -/
structure Project where
  network : Option Network
  geometry : Option Geometry
  phases : List Phase
  deriving DecidableEq, Repr

/-- Modelled from the spec: the workspace holds global settings such as
the log verbosity (spec §4.1). -/
structure Workspace where
  loglevel : Nat
  deriving DecidableEq, Repr

/-- A new, empty project bound to a workspace (spec §4.1). -/
def Workspace.new_project (_ws : Workspace) : Project := ⟨none, none, []⟩

/-- The local filesystem as the exporter sees it: the names of the files
in the working directory, and whether that directory is writable. -/
structure FileSys where
  files : List String
  writable : Bool
  deriving DecidableEq, Repr

/-- Modelled from the spec: the errors `export_data` can raise
(spec §4.5). -/
inductive ExportError
  | unsupportedFormat
  | ioError
  deriving DecidableEq, Repr

/-- Modelled from the spec: the format tags the exporter recognizes; the
script uses the `Salome` tag (spec §4.5). -/
def recognizedFiletypes : List String := ["Salome"]

/-- The whole mutable state an exporter call can see: the project, the
filesystem and the ambient random-number-generator state. -/
structure World where
  proj : Project
  fs : FileSys
  rng : Nat
  deriving DecidableEq, Repr

/-- Modelled from the spec: `proj.export_data` — serializes the project
and the selected phases into a script file named from the base filename;
a pure serialization step that must not mutate project state.  It fails
with `UnsupportedFormatError` on an unrecognized filetype tag and with
`IOError` when the filename is not writable, touching no file in either
case (spec §4.5). -/
def export_data (w : World) (_phases : List Phase)
    (filename filetype : String) : Except ExportError Unit × World :=
  if filetype ∈ recognizedFiletypes then
    if w.fs.writable then
      (.ok (), { w with fs := ⟨(filename ++ ".py") :: w.fs.files, w.fs.writable⟩ })
    else
      (.error .ioError, w)
  else
    (.error .unsupportedFormat, w)

/-! ### The script pipeline -/

/-- The failures any step of the script can surface (spec §7: all errors
propagate uncaught to the invoking environment). -/
inductive ScriptError
  | build (e : BuildError)
  | geo (e : GeoError)
  | exportErr (e : ExportError)
  deriving DecidableEq, Repr

/-- The full pipeline of `example_salome_export.py`: workspace with
loglevel 30, a new project, seed 7, a cubic network of shape [4, 3, 3]
with spacing 1e-4, stick-and-ball geometry over all pores and throats
(`net.Ps`, `net.Ts`), a water phase, and a Salome export to filename
base `OUT`.  Returns the final filesystem. -/
def runScript (fs0 : FileSys) : Except ScriptError FileSys :=
  let ws : Workspace := ⟨30⟩
  let proj0 := ws.new_project
  let rng := 7
  match Cubic (4, 3, 3) (.scalar (1 / 10000)) rng with
  | .error e => .error (.build e)
  | .ok net =>
    match StickAndBall net net.Ps net.Ts with
    | .error e => .error (.geo e)
    | .ok geo =>
      let phase := Water net
      let proj : Project := { proj0 with network := some net, geometry := some geo, phases := [phase] }
      match export_data ⟨proj, fs0, rng⟩ [phase] "OUT" "Salome" with
      | (.error e, _) => .error (.exportErr e)
      | (.ok _, w) => .ok w.fs

/-! ### Throat membership characterization -/

/-- A coordinate lies inside the shape `(nx, ny, nz)`. -/
def inShape (nx ny nz : Nat) (p : Coord) : Prop :=
  p.1 < nx ∧ p.2.1 < ny ∧ p.2.2 < nz

/-- Two lattice coordinates are axis-aligned nearest neighbours: they agree
on two axes and differ by exactly one on the third — the (i±1, j, k),
(i, j±1, k), (i, j, k±1) relation of the spec. -/
def isLatticeNeighbor (p q : Coord) : Prop :=
  (q.1 = p.1 + 1 ∧ q.2.1 = p.2.1 ∧ q.2.2 = p.2.2) ∨
  (p.1 = q.1 + 1 ∧ q.2.1 = p.2.1 ∧ q.2.2 = p.2.2) ∨
  (q.1 = p.1 ∧ q.2.1 = p.2.1 + 1 ∧ q.2.2 = p.2.2) ∨
  (q.1 = p.1 ∧ p.2.1 = q.2.1 + 1 ∧ q.2.2 = p.2.2) ∨
  (q.1 = p.1 ∧ q.2.1 = p.2.1 ∧ q.2.2 = p.2.2 + 1) ∨
  (q.1 = p.1 ∧ q.2.1 = p.2.1 ∧ p.2.2 = q.2.2 + 1)

/-- Two pores are connected in a network when some throat joins them, in
either orientation. -/
def Network.connected (n : Network) (p q : Coord) : Prop :=
  (p, q) ∈ n.throats ∨ (q, p) ∈ n.throats

theorem mem_cubicThroatsX_iff (nx ny nz pi pj pk qi qj qk : Nat) :
    ((pi, pj, pk), (qi, qj, qk)) ∈ cubicThroatsX nx ny nz ↔
      pi + 1 < nx ∧ pj < ny ∧ pk < nz ∧ qi = pi + 1 ∧ qj = pj ∧ qk = pk := by
  simp only [cubicThroatsX, List.mem_flatMap, List.mem_map, List.mem_range,
    Prod.mk.injEq]
  constructor
  · rintro ⟨i, hi, j, hj, k, hk, ⟨rfl, rfl, rfl⟩, h4, h5, h6⟩
    omega
  · rintro ⟨h1, h2, h3, h4, h5, h6⟩
    exact ⟨pi, by omega, pj, h2, pk, h3, ⟨rfl, rfl, rfl⟩, by omega, by omega,
      by omega⟩

theorem mem_cubicThroatsY_iff (nx ny nz pi pj pk qi qj qk : Nat) :
    ((pi, pj, pk), (qi, qj, qk)) ∈ cubicThroatsY nx ny nz ↔
      pi < nx ∧ pj + 1 < ny ∧ pk < nz ∧ qi = pi ∧ qj = pj + 1 ∧ qk = pk := by
  simp only [cubicThroatsY, List.mem_flatMap, List.mem_map, List.mem_range,
    Prod.mk.injEq]
  constructor
  · rintro ⟨i, hi, j, hj, k, hk, ⟨rfl, rfl, rfl⟩, h4, h5, h6⟩
    omega
  · rintro ⟨h1, h2, h3, h4, h5, h6⟩
    exact ⟨pi, h1, pj, by omega, pk, h3, ⟨rfl, rfl, rfl⟩, by omega, by omega,
      by omega⟩

theorem mem_cubicThroatsZ_iff (nx ny nz pi pj pk qi qj qk : Nat) :
    ((pi, pj, pk), (qi, qj, qk)) ∈ cubicThroatsZ nx ny nz ↔
      pi < nx ∧ pj < ny ∧ pk + 1 < nz ∧ qi = pi ∧ qj = pj ∧ qk = pk + 1 := by
  simp only [cubicThroatsZ, List.mem_flatMap, List.mem_map, List.mem_range,
    Prod.mk.injEq]
  constructor
  · rintro ⟨i, hi, j, hj, k, hk, ⟨rfl, rfl, rfl⟩, h4, h5, h6⟩
    omega
  · rintro ⟨h1, h2, h3, h4, h5, h6⟩
    exact ⟨pi, h1, pj, h2, pk, by omega, ⟨rfl, rfl, rfl⟩, by omega, by omega,
      by omega⟩

set_option maxHeartbeats 1000000 in
theorem mem_cubicThroats_or_iff (nx ny nz pi pj pk qi qj qk : Nat) :
    ((pi, pj, pk), (qi, qj, qk)) ∈ cubicThroats nx ny nz ∨
        ((qi, qj, qk), (pi, pj, pk)) ∈ cubicThroats nx ny nz ↔
      inShape nx ny nz (pi, pj, pk) ∧ inShape nx ny nz (qi, qj, qk) ∧
        isLatticeNeighbor (pi, pj, pk) (qi, qj, qk) := by
  simp only [cubicThroats, List.mem_append, mem_cubicThroatsX_iff,
    mem_cubicThroatsY_iff, mem_cubicThroatsZ_iff, inShape, isLatticeNeighbor]
  constructor
  · intro h
    rcases h with ((h | h) | h) | (h | h) | h <;> omega
  · intro h
    obtain ⟨hp, hq, hn⟩ := h
    rcases hn with h | h | h | h | h | h <;> omega

/-- The full 6-connectivity characterization: two pores are connected by a
throat, in some orientation, exactly when both lie inside the shape and
are axis-aligned nearest neighbours. -/
theorem connected_iff (n : Network) (p q : Coord) :
    n.connected p q ↔
      inShape n.nx n.ny n.nz p ∧ inShape n.nx n.ny n.nz q ∧
        isLatticeNeighbor p q := by
  obtain ⟨pi, pj, pk⟩ := p
  obtain ⟨qi, qj, qk⟩ := q
  exact mem_cubicThroats_or_iff n.nx n.ny n.nz pi pj pk qi qj qk

/-! ### Claim theorems: network construction -/

/-- Claim C1: for every cubic network built with shape (nx, ny, nz) of
positive integers, the pore count equals `nx*ny*nz` and the throat count
equals `nx*ny*(nz-1) + nx*(ny-1)*nz + (nx-1)*ny*nz`; instantiated at the
script's shape [4, 3, 3] by the witness, giving 36 pores and 75 throats. -/
theorem cubic_pore_throat_counts (nx ny nz : Nat) (sp : Spacing) (r : Nat)
    (net : Network) (_hx : 0 < nx) (_hy : 0 < ny) (_hz : 0 < nz)
    (h : Cubic ((nx : Int), (ny : Int), (nz : Int)) sp r = .ok net) :
    net.Np = nx * ny * nz ∧
      net.Nt = nx * ny * (nz - 1) + nx * (ny - 1) * nz + (nx - 1) * ny * nz := by
  unfold Cubic at h
  split at h
  · exact absurd h (by simp)
  · split at h
    · exact absurd h (by simp)
    · rw [Except.ok.injEq] at h
      subst h
      simp only [Network.Np, Network.Nt, Network.pores, Network.throats,
        Int.toNat_natCast, cubicPores_length, cubicThroats_length]
      trivial

/-- Witness for C1 at the script's shape [4, 3, 3]: 36 pores, 75 throats. -/
theorem cubic_pore_throat_counts_witness :
    Network.Np ⟨4, 3, 3, (1 / 10000, 1 / 10000, 1 / 10000)⟩ = 36 ∧
      Network.Nt ⟨4, 3, 3, (1 / 10000, 1 / 10000, 1 / 10000)⟩ = 75 := by
  have h := cubic_pore_throat_counts 4 3 3 (.scalar (1 / 10000)) 7
    ⟨4, 3, 3, (1 / 10000, 1 / 10000, 1 / 10000)⟩
    (by norm_num) (by norm_num) (by norm_num)
    (by simp [Cubic, Spacing.isValid, Spacing.components])
  exact ⟨h.1.trans (by norm_num), h.2.trans (by norm_num)⟩

/-- Claim C2: in every network produced by the cubic builder, throats
connect exactly the pairs of in-shape pores that are axis-aligned nearest
neighbours (6-connectivity; no other throats exist). -/
theorem cubic_six_connectivity (sh : Int × Int × Int) (sp : Spacing)
    (r : Nat) (net : Network) (_h : Cubic sh sp r = .ok net) (p q : Coord) :
    net.connected p q ↔
      inShape net.nx net.ny net.nz p ∧ inShape net.nx net.ny net.nz q ∧
        isLatticeNeighbor p q :=
  connected_iff net p q

/-- Witness for C2: in the script's 4×3×3 network, (0,0,0) and (1,0,0)
are connected and the characterization evaluates truthfully. -/
theorem cubic_six_connectivity_witness :
    Network.connected ⟨4, 3, 3, (1 / 10000, 1 / 10000, 1 / 10000)⟩
        (0, 0, 0) (1, 0, 0) ↔
      inShape 4 3 3 (0, 0, 0) ∧ inShape 4 3 3 (1, 0, 0) ∧
        isLatticeNeighbor (0, 0, 0) (1, 0, 0) :=
  cubic_six_connectivity (4, 3, 3) (.scalar (1 / 10000)) 7
    ⟨4, 3, 3, (1 / 10000, 1 / 10000, 1 / 10000)⟩
    (by simp [Cubic, Spacing.isValid, Spacing.components]) (0, 0, 0) (1, 0, 0)

/-- Claim C3: the topology (pores, throats) of a built network is a pure
function of the shape — two builder runs with the same shape and spacing
but different random-number-generator states yield identical topologies. -/
theorem cubic_topology_deterministic (sh : Int × Int × Int) (sp : Spacing)
    (r1 r2 : Nat) (net1 net2 : Network)
    (h1 : Cubic sh sp r1 = .ok net1) (h2 : Cubic sh sp r2 = .ok net2) :
    net1.pores = net2.pores ∧ net1.throats = net2.throats := by
  have hsame : Cubic sh sp r1 = Cubic sh sp r2 := rfl
  rw [h1, h2, Except.ok.injEq] at hsame
  rw [hsame]
  exact ⟨rfl, rfl⟩

/-- Witness for C3: two runs at the script's parameters with seeds 7 and
0 produce the same pores and throats. -/
theorem cubic_topology_deterministic_witness :
    Network.pores ⟨4, 3, 3, (1 / 10000, 1 / 10000, 1 / 10000)⟩ =
        Network.pores ⟨4, 3, 3, (1 / 10000, 1 / 10000, 1 / 10000)⟩ ∧
      Network.throats ⟨4, 3, 3, (1 / 10000, 1 / 10000, 1 / 10000)⟩ =
        Network.throats ⟨4, 3, 3, (1 / 10000, 1 / 10000, 1 / 10000)⟩ :=
  cubic_topology_deterministic (4, 3, 3) (.scalar (1 / 10000)) 7 0
    ⟨4, 3, 3, (1 / 10000, 1 / 10000, 1 / 10000)⟩
    ⟨4, 3, 3, (1 / 10000, 1 / 10000, 1 / 10000)⟩
    (by simp [Cubic, Spacing.isValid, Spacing.components])
    (by simp [Cubic, Spacing.isValid, Spacing.components])

/-! ### Claim theorems: geometry assignment -/

/-- Claim C4: geometry assignment is idempotent and free of hidden
randomness — a successful run of the stick-and-ball assigner leaves the
ambient state untouched, so running it again with the same pore and
throat identifier sets yields the identical attribute values and state. -/
theorem stickAndBall_idempotent (net : Network) (ps ts : List Nat)
    (st : SimState) (g1 : Geometry) (st1 : SimState)
    (h : StickAndBallRun net ps ts st = .ok (g1, st1)) :
    StickAndBallRun net ps ts st1 = .ok (g1, st1) := by
  unfold StickAndBallRun at h ⊢
  cases hsb : StickAndBall net ps ts <;> rw [hsb] at h <;>
    simp_all [Except.map]

/-- Witness for C4: one pore and one throat of the script's network,
assigned twice from state ⟨7⟩. -/
theorem stickAndBall_idempotent_witness :
    StickAndBallRun ⟨4, 3, 3, (1 / 10000, 1 / 10000, 1 / 10000)⟩ [0] [0] ⟨7⟩ =
      .ok (computeGeometry ⟨4, 3, 3, (1 / 10000, 1 / 10000, 1 / 10000)⟩
        [0] [0], ⟨7⟩) :=
  stickAndBall_idempotent ⟨4, 3, 3, (1 / 10000, 1 / 10000, 1 / 10000)⟩ [0] [0]
    ⟨7⟩ (computeGeometry ⟨4, 3, 3, (1 / 10000, 1 / 10000, 1 / 10000)⟩ [0] [0])
    ⟨7⟩ (by simp [StickAndBallRun, StickAndBall, Network.Np, Network.Nt,
      Network.pores, Network.throats, Except.map, cubicPores_length,
      cubicThroats_length])

/-- Claim C6: the stick-and-ball assigner raises `EntityNotFoundError`
exactly when some passed pore or throat identifier is out of range for
the network; when all identifiers exist the assignment succeeds. -/
theorem stickAndBall_entityNotFound_iff (net : Network) (ps ts : List Nat) :
    (StickAndBall net ps ts = .error .entityNotFound ↔
      (∃ p ∈ ps, net.Np ≤ p) ∨ (∃ t ∈ ts, net.Nt ≤ t)) ∧
    ((∀ p ∈ ps, p < net.Np) → (∀ t ∈ ts, t < net.Nt) →
      StickAndBall net ps ts = .ok (computeGeometry net ps ts)) := by
  have hiff : (((ps.all fun p => p < net.Np) &&
        (ts.all fun t => t < net.Nt)) = true) ↔
      ((∀ p ∈ ps, p < net.Np) ∧ (∀ t ∈ ts, t < net.Nt)) := by
    simp [List.all_eq_true]
  constructor
  · by_cases hc : ((ps.all fun p => p < net.Np) &&
        (ts.all fun t => t < net.Nt)) = true
    · rw [StickAndBall, if_pos hc]
      rw [hiff] at hc
      constructor
      · intro h
        exact Except.noConfusion h
      · rintro (⟨p, hp, hge⟩ | ⟨t, ht, hge⟩)
        · exact absurd (hc.1 p hp) (by omega)
        · exact absurd (hc.2 t ht) (by omega)
    · rw [StickAndBall, if_neg hc]
      constructor
      · intro _
        rw [hiff, not_and_or] at hc
        rcases hc with h | h
        · simp only [not_forall, not_lt, exists_prop] at h
          obtain ⟨p, hp, hnp⟩ := h
          exact Or.inl ⟨p, hp, hnp⟩
        · simp only [not_forall, not_lt, exists_prop] at h
          obtain ⟨t, ht, hnt⟩ := h
          exact Or.inr ⟨t, ht, hnt⟩
      · intro _
        rfl
  · intro hps hts
    rw [StickAndBall, if_pos (hiff.mpr ⟨hps, hts⟩)]

/-- Witness for C6: a 1×1×1 network has a single pore, so referencing
pore 5 raises the entity-not-found error. -/
theorem stickAndBall_entityNotFound_witness :
    StickAndBall ⟨1, 1, 1, (1, 1, 1)⟩ [5] [] = .error .entityNotFound :=
  (stickAndBall_entityNotFound_iff ⟨1, 1, 1, (1, 1, 1)⟩ [5] []).1.mpr
    (Or.inl ⟨5, by simp, by simp [Network.Np, Network.pores,
      cubicPores_length]⟩)

/-! ### Claim theorems: exporter -/

/-- Claim C7: for every project state and filename, an unrecognized
filetype tag makes `export_data` fail with `UnsupportedFormatError` and
leave the filesystem unchanged. -/
theorem export_data_unsupported_format (w : World) (phases : List Phase)
    (fn ft : String) (h : ft ∉ recognizedFiletypes) :
    (export_data w phases fn ft).1 = .error .unsupportedFormat ∧
      (export_data w phases fn ft).2.fs = w.fs := by
  unfold export_data
  rw [if_neg h]
  exact ⟨rfl, rfl⟩

/-- Witness for C7: the tag "VTP" is not recognized, so the export fails
and touches no file. -/
theorem export_data_unsupported_format_witness :
    (export_data ⟨⟨none, none, []⟩, ⟨[], true⟩, 0⟩ [] "OUT" "VTP").1 =
        .error .unsupportedFormat ∧
      (export_data ⟨⟨none, none, []⟩, ⟨[], true⟩, 0⟩ [] "OUT" "VTP").2.fs =
        ⟨[], true⟩ :=
  export_data_unsupported_format ⟨⟨none, none, []⟩, ⟨[], true⟩, 0⟩ [] "OUT"
    "VTP" (by simp [recognizedFiletypes])

/-- Claim C8: the export operation never mutates the in-memory simulation
state — whatever the outcome, the project (with its network, geometry and
phases) and the ambient random-number-generator state are unchanged. -/
theorem export_data_preserves_project (w : World) (phases : List Phase)
    (fn ft : String) :
    (export_data w phases fn ft).2.proj = w.proj ∧
      (export_data w phases fn ft).2.proj.network = w.proj.network ∧
      (export_data w phases fn ft).2.proj.geometry = w.proj.geometry ∧
      (export_data w phases fn ft).2.proj.phases = w.proj.phases ∧
      (export_data w phases fn ft).2.rng = w.rng := by
  unfold export_data
  split
  · split
    · exact ⟨rfl, rfl, rfl, rfl, rfl⟩
    · exact ⟨rfl, rfl, rfl, rfl, rfl⟩
  · exact ⟨rfl, rfl, rfl, rfl, rfl⟩

/-! ### Claim theorems: builder error conditions -/

theorem Spacing.isValid_iff (sp : Spacing) :
    sp.isValid = true ↔
      0 < sp.components.1 ∧ 0 < sp.components.2.1 ∧ 0 < sp.components.2.2 := by
  cases sp <;> simp [Spacing.isValid, Spacing.components, and_assoc]

/-- Counterexample to C5 as stated: with shape (0, 0, 0) and spacing −1
both inputs are invalid, and the builder raises `InvalidShapeError`, not
`InvalidSpacingError` — so "fails with InvalidSpacingError whenever the
spacing is non-positive" does not hold unconditionally. -/
theorem cubic_spacing_error_counterexample :
    Cubic (0, 0, 0) (.scalar (-1)) 0 = .error .invalidShape ∧
      ¬ Cubic (0, 0, 0) (.scalar (-1)) 0 = .error .invalidSpacing := by
  have h0 : Cubic (0, 0, 0) (.scalar (-1)) 0 = .error .invalidShape := by
    simp [Cubic]
  refine ⟨h0, fun h => ?_⟩
  rw [h0] at h
  simp at h

/-- Claim C5 (amended): the builder fails with `InvalidShapeError`
whenever any shape dimension is non-positive; when the shape is valid it
fails with `InvalidSpacingError` whenever any spacing component is
non-positive; and for positive shape and spacing neither error occurs. -/
theorem cubic_error_conditions (a b c : Int) (sp : Spacing) (r : Nat) :
    ((a ≤ 0 ∨ b ≤ 0 ∨ c ≤ 0) → Cubic (a, b, c) sp r = .error .invalidShape) ∧
    (0 < a → 0 < b → 0 < c →
      (sp.components.1 ≤ 0 ∨ sp.components.2.1 ≤ 0 ∨
        sp.components.2.2 ≤ 0) →
      Cubic (a, b, c) sp r = .error .invalidSpacing) ∧
    (0 < a → 0 < b → 0 < c → 0 < sp.components.1 → 0 < sp.components.2.1 →
      0 < sp.components.2.2 → ∃ net, Cubic (a, b, c) sp r = .ok net) := by
  refine ⟨?_, ?_, ?_⟩
  · intro h
    rw [Cubic, if_pos h]
  · intro ha hb hc hsp
    have hshape : ¬ (a ≤ 0 ∨ b ≤ 0 ∨ c ≤ 0) := by omega
    have hval : ¬ sp.isValid = true := by
      rw [Spacing.isValid_iff]
      intro hv
      rcases hsp with h | h | h
      · exact absurd hv.1 (not_lt.mpr h)
      · exact absurd hv.2.1 (not_lt.mpr h)
      · exact absurd hv.2.2 (not_lt.mpr h)
    rw [Cubic, if_neg hshape, if_pos hval]
  · intro ha hb hc h1 h2 h3
    have hshape : ¬ (a ≤ 0 ∨ b ≤ 0 ∨ c ≤ 0) := by omega
    have hval : sp.isValid = true := (Spacing.isValid_iff sp).mpr ⟨h1, h2, h3⟩
    exact ⟨_, by rw [Cubic, if_neg hshape, if_neg (by simp [hval])]⟩

/-- Witness for the amended C5: shape (−1, 3, 3) raises the shape error,
shape (4, 3, 3) with spacing −1 raises the spacing error, and the
script's valid parameters raise neither. -/
theorem cubic_error_conditions_witness :
    Cubic (-1, 3, 3) (.scalar 1) 0 = .error .invalidShape ∧
      Cubic (4, 3, 3) (.scalar (-1)) 0 = .error .invalidSpacing ∧
      ∃ net, Cubic (4, 3, 3) (.scalar (1 / 10000)) 7 = .ok net :=
  ⟨(cubic_error_conditions (-1) 3 3 (.scalar 1) 0).1 (Or.inl (by norm_num)),
    (cubic_error_conditions 4 3 3 (.scalar (-1)) 0).2.1 (by norm_num)
      (by norm_num) (by norm_num) (Or.inl (by norm_num [Spacing.components])),
    (cubic_error_conditions 4 3 3 (.scalar (1 / 10000)) 7).2.2 (by norm_num)
      (by norm_num) (by norm_num) (by norm_num [Spacing.components])
      (by norm_num [Spacing.components]) (by norm_num [Spacing.components])⟩

/-! ### Claim theorems: the script pipeline -/

/-- Passing the full identifier sequences `net.Ps` and `net.Ts` always
satisfies the assigner's existence check. -/
theorem stickAndBall_Ps_Ts (net : Network) :
    StickAndBall net net.Ps net.Ts =
      .ok (computeGeometry net net.Ps net.Ts) := by
  have h1 : (net.Ps.all fun p => p < net.Np) = true := by
    simp [Network.Ps, List.all_eq_true, List.mem_range]
  have h2 : (net.Ts.all fun t => t < net.Nt) = true := by
    simp [Network.Ts, List.all_eq_true, List.mem_range]
  rw [StickAndBall, if_pos (by rw [h1, h2]; rfl)]

/-- `f` begins with `p` when `p`'s characters are an initial segment of
`f`'s. -/
def strBeginsWith (s p : String) : Bool := p.data.isPrefixOf s.data

theorem map_fst_map_pair {α β : Type} (l : List α) (f : α → β) :
    (l.map fun a => (a, f a)).map Prod.fst = l := by
  induction l with
  | nil => rfl
  | cons a l ih => simp [ih]

/-- Claim C10: the script passes the complete pore and throat identifier
sequences to the geometry assigner, so the assignment succeeds — the
missing-entity branch is unreachable — and every pore and throat receives
attributes. -/
theorem script_geometry_covers_network (net : Network) :
    StickAndBall net net.Ps net.Ts =
        .ok (computeGeometry net net.Ps net.Ts) ∧
      (computeGeometry net net.Ps net.Ts).poreAttrs.map Prod.fst = net.Ps ∧
      (computeGeometry net net.Ps net.Ts).throatAttrs.map Prod.fst =
        net.Ts := by
  exact ⟨stickAndBall_Ps_Ts net, map_fst_map_pair _ _, map_fst_map_pair _ _⟩

/-- Claim C9: on a writable working directory with no pre-existing
`OUT.py`, the full script pipeline terminates without error and leaves a
new file whose name begins with `OUT`. -/
theorem runScript_creates_output (fs0 : FileSys) (hw : fs0.writable = true)
    (hnew : "OUT.py" ∉ fs0.files) :
    ∃ fs', runScript fs0 = .ok fs' ∧
      ∃ f, f ∈ fs'.files ∧ f ∉ fs0.files ∧ strBeginsWith f "OUT" = true := by
  have hcu : Cubic (4, 3, 3) (.scalar (1 / 10000)) 7 =
      .ok ⟨4, 3, 3, (1 / 10000, 1 / 10000, 1 / 10000)⟩ := by
    simp [Cubic, Spacing.isValid, Spacing.components]
  simp only [runScript, hcu, stickAndBall_Ps_Ts, export_data,
    recognizedFiletypes, List.mem_cons, List.not_mem_nil, or_false, hw,
    if_true]
  exact ⟨⟨"OUT.py" :: fs0.files, true⟩, rfl, "OUT.py",
    List.mem_cons_self _ _, hnew, by decide⟩

/-- Witness for C9: on the empty writable directory the pipeline
succeeds and produces a file beginning with `OUT`. -/
theorem runScript_creates_output_witness :
    ∃ fs', runScript ⟨[], true⟩ = .ok fs' ∧
      ∃ f, f ∈ fs'.files ∧ f ∉ ([] : List String) ∧
        strBeginsWith f "OUT" = true :=
  runScript_creates_output ⟨[], true⟩ rfl (by simp)

end OpenPNM
